import Mathlib

/-!
Verification of the virtio-blk frontend of the opi-nvidia-bridge storage
server (pkg/frontend/virtio.go) against its natural-language specification.

The Go code is shallowly embedded: the Server state (the VirtioCtrls
controller registry and the Pagination cursor store) is an explicit record,
each gRPC handler becomes a pure function from the state, the request and
the backend reply to an outcome record, and the backend RPC gateway is
modelled by passing the reply of the single backend call the handler makes
as a parameter, together with a count of how many backend calls the handler
issued.  Helper code that lives outside this repository (the opi-spdk-bridge
server helpers and the einride aip validators) is modelled from the words of
the specification; each such definition carries a doc comment saying so.
-/

namespace OpiNvidia

/-- Proto message ObjectKey (common.v1): an opaque string key. -/
structure ObjectKey where
  value : String
  deriving DecidableEq, Repr

/-- Proto message PciEndpoint: pcie topology location of a controller. -/
structure PciEndpoint where
  physicalFunction : Int
  virtualFunction : Int
  deriving DecidableEq, Repr

/-- Proto message VirtioBlk: the controller resource representation. -/
structure VirtioBlk where
  id : ObjectKey
  name : String
  pcieId : PciEndpoint
  volumeId : ObjectKey
  maxIoQps : Int
  deriving DecidableEq, Repr

/-- Modelled from the spec: the backend controller_list reply, a list of
entries of shape (name, type, pci_index); the field shapes are also fixed
by their uses in ListVirtioBlks and GetVirtioBlk (pkg/models is not part
of the sources given). -/
structure NvdaControllerListResult where
  name : String
  type : String
  pciIndex : Int
  deriving DecidableEq, Repr

/-- Modelled from the spec: one device entry of the nested iostat reply,
with a device name and read/write operation counts, as used in
VirtioBlkStats (pkg/models is not part of the sources given). -/
structure NvdaBdevStats where
  bdevName : String
  readIos : Int
  writeIos : Int
  deriving DecidableEq, Repr

/-- Modelled from the spec: one controller entry of the nested iostat
reply, holding its device entries. -/
structure NvdaControllerStats where
  bdevs : List NvdaBdevStats
  deriving DecidableEq, Repr

/-- Modelled from the spec: the backend controller_virtio_blk_get_iostat
reply, a nested controller-to-devices statistics structure. -/
structure NvdaControllerNvmeStatsResult where
  controllers : List NvdaControllerStats
  deriving DecidableEq, Repr

/-- Proto message VolumeStats: the projected operation counters. -/
structure VolumeStats where
  readOpsCount : Int
  writeOpsCount : Int
  deriving DecidableEq, Repr

/-- Proto message VirtioBlkStatsResponse. -/
structure VirtioBlkStatsResponse where
  id : ObjectKey
  stats : VolumeStats
  deriving DecidableEq, Repr

/-- Proto message ListVirtioBlksResponse: the page of resources plus the
next-page token field (a proto string field, empty when not set). -/
structure ListVirtioBlksResponse where
  virtioBlks : List VirtioBlk
  nextPageToken : String
  deriving DecidableEq, Repr

/-- gRPC status codes used by the handlers. -/
inductive GrpcCode
  | invalidArgument
  | notFound
  | unimplemented
  deriving DecidableEq, Repr

/-- Errors a handler can return: failures of the four external validators,
a plain formatted Go error, a gRPC status error, and a propagated backend
transport error. -/
inductive Err
  | invalidResourceId
  | missingRequiredField
  | invalidResourceName
  | invalidFieldMask
  | goError (msg : String)
  | grpcStatus (code : GrpcCode) (msg : String)
  | transport (msg : String)
  deriving DecidableEq, Repr

/-- The Server state of pkg/frontend: the controller registry VirtioCtrls
(resource name to stored representation) and the Pagination cursor store
(token to resume offset), both as association lists read through lookup. -/
structure ServerState where
  virtioCtrls : List (String × VirtioBlk)
  pagination : List (String × Nat)
  deriving DecidableEq, Repr

instance {ε α : Type} [DecidableEq ε] [DecidableEq α] :
    DecidableEq (Except ε α) := fun a b =>
  match a, b with
  | .ok x, .ok y =>
    if h : x = y then .isTrue (congrArg Except.ok h)
    else .isFalse (fun hc => h (Except.ok.inj hc))
  | .error x, .error y =>
    if h : x = y then .isTrue (congrArg Except.error h)
    else .isFalse (fun hc => h (Except.error.inj hc))
  | .ok _, .error _ => .isFalse (fun hc => Except.noConfusion hc)
  | .error _, .ok _ => .isFalse (fun hc => Except.noConfusion hc)

/-- Outcome of one handler call: the returned value or error, the state
after the call, and how many backend RPC calls were issued. -/
structure Outcome (α : Type) where
  result : Except Err α
  state : ServerState
  backendCalls : Nat
  deriving DecidableEq, Repr

/-- Go delete of a key from the VirtioCtrls map. -/
def mapErase (m : List (String × VirtioBlk)) (k : String) :
    List (String × VirtioBlk) :=
  m.filter (fun kv => kv.1 != k)

/-- Modelled from the spec: the deterministic naming function of the
opi-spdk-bridge server helper ResourceIDToVolumeName, embedding the
identifier into the canonical resource name as its trailing path
segment (the helper is outside the sources given). -/
def resourceIDToVolumeName (resourceID : String) : String :=
  "//storage.opiproject.org/volumes/" ++ resourceID

/-- Modelled from the spec: the user-settable identifier check of the
einride resourceid validator: non-empty, a restricted character set, and
not colliding with the 36-character shape of system-generated identifiers
(the validator is outside the sources given). -/
def validateUserSettable (id : String) : Bool :=
  !id.data.isEmpty && decide (id.data.length ≤ 63) &&
    id.data.all (fun c => c.isLower || c.isDigit || c == '-') &&
    id.data.length != 36

/-- Split a character list at every slash, keeping empty segments. -/
def splitOnSlash : List Char → List (List Char)
  | [] => [[]]
  | c :: cs =>
    let rest := splitOnSlash cs
    if c == '/' then [] :: rest
    else
      match rest with
      | [] => [[c]]
      | seg :: segs => (c :: seg) :: segs

/-- Modelled from the spec: the AIP-122 resource-name syntax check of the
einride resourcename validator: non-empty, and after the optional leading
double-slash service marker every path segment is non-empty (the validator
is outside the sources given). -/
def validateResourceName (name : String) : Bool :=
  let cs := name.data
  !cs.isEmpty &&
    (let rest := if cs.take 2 == ['/', '/'] then cs.drop 2 else cs
     !rest.isEmpty && (splitOnSlash rest).all (fun seg => !seg.isEmpty))

/-- Modelled from the spec: the required-fields check of the einride
fieldbehavior validator, for requests whose single required field is the
resource name (the validator is outside the sources given). -/
def validateRequiredName (name : String) : Bool :=
  name != ""

/-- Field paths of the VirtioBlk message, for the field-mask check. -/
def virtioBlkFieldPaths : List String :=
  ["id", "name", "pcie_id", "volume_id", "max_io_qps"]

/-- Modelled from the spec: the field-mask check of the einride fieldmask
validator: every path of the mask must be a field path of the payload
message (the validator is outside the sources given). -/
def validateFieldMask (mask : List String) : Bool :=
  mask.all (fun p => virtioBlkFieldPaths.contains p)

/-- Go path.Base of a resource name: the trailing path segment. -/
def pathBase (p : String) : String :=
  if p.data.isEmpty then "."
  else
    let s := (p.data.reverse.dropWhile (fun c => c == '/')).reverse
    if s.isEmpty then "/"
    else String.mk (s.reverse.takeWhile (fun c => c != '/')).reverse

/-- Go conversion int32(n): truncate to the low 32 bits, signed. -/
def toInt32 (n : Int) : Int :=
  (n + 2 ^ 31) % 2 ^ 32 - 2 ^ 31

/-- Byte-wise lexicographic order on names, the order Go string comparison
uses in sortVirtioBlks. -/
def charListLe : List Char → List Char → Bool
  | [], _ => true
  | _ :: _, [] => false
  | a :: as, b :: bs =>
    if a.toNat < b.toNat then true
    else if b.toNat < a.toNat then false
    else charListLe as bs

/-- Comparison by resource name, the less function of sortVirtioBlks. -/
def nameLe (a b : VirtioBlk) : Bool :=
  charListLe a.name.data b.name.data

/-- Go sortVirtioBlks: sort a slice of VirtioBlk by name ascending. -/
def sortVirtioBlks (virtioBlks : List VirtioBlk) : List VirtioBlk :=
  virtioBlks.mergeSort nameLe

/-- Request message of CreateVirtioBlk: the desired spec plus the optional
caller-supplied identifier (empty string when absent). -/
structure CreateVirtioBlkRequest where
  virtioBlk : VirtioBlk
  virtioBlkId : String
  deriving DecidableEq, Repr

/-- Resource identifier CreateVirtioBlk settles on: the caller-supplied
one when present, else the freshly system-generated one. -/
def derivedResourceID (req : CreateVirtioBlkRequest) (sysGenId : String) :
    String :=
  if req.virtioBlkId != "" then req.virtioBlkId else sysGenId

/-- Go CreateVirtioBlk.  sysGenId stands for the freshly generated
identifier resourceid.NewSystemGenerated returned; backend is the reply of
the controller_virtio_blk_create call (transport error or result string). -/
def createVirtioBlk (s : ServerState) (req : CreateVirtioBlkRequest)
    (sysGenId : String) (backend : Except String String) : Outcome VirtioBlk :=
  if req.virtioBlkId != "" && !(validateUserSettable req.virtioBlkId) then
    { result := .error .invalidResourceId, state := s, backendCalls := 0 }
  else
    let resourceID := derivedResourceID req sysGenId
    let name := resourceIDToVolumeName resourceID
    match s.virtioCtrls.lookup name with
    | some controller =>
      { result := .ok controller, state := s, backendCalls := 0 }
    | none =>
      match backend with
      | .error e =>
        { result := .error (.transport e), state := s, backendCalls := 1 }
      | .ok res =>
        if res == "" then
          { result := .error (.grpcStatus .invalidArgument
              ("Could not create virtio-blk: " ++ resourceID)),
            state := s, backendCalls := 1 }
        else
          let response := { req.virtioBlk with name := name }
          { result := .ok response,
            state := { s with virtioCtrls := (name, response) :: s.virtioCtrls },
            backendCalls := 1 }

/-- Request message of DeleteVirtioBlk. -/
structure DeleteVirtioBlkRequest where
  name : String
  allowMissing : Bool
  deriving DecidableEq, Repr

/-- Go DeleteVirtioBlk.  backend is the reply of the
controller_virtio_blk_delete call (transport error or boolean result). -/
def deleteVirtioBlk (s : ServerState) (req : DeleteVirtioBlkRequest)
    (backend : Except String Bool) : Outcome Unit :=
  if !(validateRequiredName req.name) then
    { result := .error .missingRequiredField, state := s, backendCalls := 0 }
  else if !(validateResourceName req.name) then
    { result := .error .invalidResourceName, state := s, backendCalls := 0 }
  else
    match s.virtioCtrls.lookup req.name with
    | none =>
      if req.allowMissing then
        { result := .ok (), state := s, backendCalls := 0 }
      else
        { result := .error (.goError ("error finding controller " ++ req.name)),
          state := s, backendCalls := 0 }
    | some controller =>
      match backend with
      | .error e =>
        { result := .error (.transport e), state := s, backendCalls := 1 }
      | .ok _res =>
        { result := .ok (),
          state := { s with virtioCtrls := mapErase s.virtioCtrls controller.name },
          backendCalls := 1 }

/-- Request message of UpdateVirtioBlk: payload, field mask (list of field
paths) and the allow-missing flag. -/
structure UpdateVirtioBlkRequest where
  virtioBlk : VirtioBlk
  updateMask : List String
  allowMissing : Bool
  deriving DecidableEq, Repr

/-- Go UpdateVirtioBlk.  Issues no backend call on any path. -/
def updateVirtioBlk (s : ServerState) (req : UpdateVirtioBlkRequest) :
    Outcome VirtioBlk :=
  if !(validateResourceName req.virtioBlk.name) then
    { result := .error .invalidResourceName, state := s, backendCalls := 0 }
  else
    match s.virtioCtrls.lookup req.virtioBlk.name with
    | none =>
      { result := .error (.grpcStatus .notFound
          ("unable to find key " ++ req.virtioBlk.name)),
        state := s, backendCalls := 0 }
    | some _volume =>
      if !(validateFieldMask req.updateMask) then
        { result := .error .invalidFieldMask, state := s, backendCalls := 0 }
      else
        { result := .error (.grpcStatus .unimplemented
            "UpdateVirtioBlk method is not implemented"),
          state := s, backendCalls := 0 }

/-- Request message of ListVirtioBlks. -/
structure ListVirtioBlksRequest where
  pageSize : Int
  pageToken : String
  deriving DecidableEq, Repr

/-- Server-configured maximum page size of the pagination helper. -/
def maxPageSize : Nat := 250

/-- Modelled from the spec: the opi-spdk-bridge ExtractPagination helper:
with a token, it must resolve through the cursor store to a prior offset
and an unresolvable token is a client error; with no token the offset is
zero; the size defaults to the server-configured maximum when unspecified
or out of bounds (the helper is outside the sources given). -/
def extractPagination (pageSize : Int) (pageToken : String)
    (pagination : List (String × Nat)) : Except Err (Nat × Nat) :=
  let size : Nat :=
    if pageSize ≤ 0 || maxPageSize < pageSize then maxPageSize
    else pageSize.toNat
  if pageToken == "" then .ok (size, 0)
  else
    match pagination.lookup pageToken with
    | some offset => .ok (size, offset)
    | none => .error (.goError ("unable to find pagination token " ++ pageToken))

/-- Modelled from the spec: the opi-spdk-bridge LimitPagination helper:
apply the offset/size window to the listing and report whether more
entries remain beyond the window (the helper is outside the sources
given). -/
def limitPagination {α : Type} (result : List α) (offset size : Nat) :
    List α × Bool :=
  ((result.drop offset).take size, decide (offset + size < result.length))

/-- Resource representation ListVirtioBlks and GetVirtioBlk build from one
backend listing entry: canonical name, the pci physical function, the
fixed placeholder volume key, and proto zero values elsewhere. -/
def listEntryToVirtioBlk (r : NvdaControllerListResult) : VirtioBlk :=
  { id := { value := "" },
    name := resourceIDToVolumeName r.name,
    pcieId := { physicalFunction := toInt32 r.pciIndex, virtualFunction := 0 },
    volumeId := { value := "TBD" },
    maxIoQps := 0 }

/-- Go ListVirtioBlks.  newToken stands for the freshly generated uuid
used when a cursor is minted; backend is the reply of the controller_list
call.  The window is applied to the raw listing, the windowed entries are
then filtered to the virtio_blk type, the page is sorted, and the response
is built without setting its next-page token field. -/
def listVirtioBlks (s : ServerState) (req : ListVirtioBlksRequest)
    (newToken : String)
    (backend : Except String (List NvdaControllerListResult)) :
    Outcome ListVirtioBlksResponse :=
  match extractPagination req.pageSize req.pageToken s.pagination with
  | .error e => { result := .error e, state := s, backendCalls := 0 }
  | .ok (size, offset) =>
    match backend with
    | .error e =>
      { result := .error (.transport e), state := s, backendCalls := 1 }
    | .ok res =>
      let windowed := limitPagination res offset size
      let s1 :=
        if windowed.2 then
          { s with pagination := (newToken, offset + size) :: s.pagination }
        else s
      let blobarray :=
        (windowed.1.filter (fun r => r.type == "virtio_blk")).map
          listEntryToVirtioBlk
      { result := .ok { virtioBlks := sortVirtioBlks blobarray,
                        nextPageToken := "" },
        state := s1, backendCalls := 1 }

/-- Request message of GetVirtioBlk. -/
structure GetVirtioBlkRequest where
  name : String
  deriving DecidableEq, Repr

/-- Go GetVirtioBlk.  backend is the reply of the controller_list call. -/
def getVirtioBlk (s : ServerState) (req : GetVirtioBlkRequest)
    (backend : Except String (List NvdaControllerListResult)) :
    Outcome VirtioBlk :=
  if !(validateRequiredName req.name) then
    { result := .error .missingRequiredField, state := s, backendCalls := 0 }
  else if !(validateResourceName req.name) then
    { result := .error .invalidResourceName, state := s, backendCalls := 0 }
  else
    match s.virtioCtrls.lookup req.name with
    | none =>
      { result := .error (.grpcStatus .invalidArgument
          ("Could not find Controller: " ++ req.name)),
        state := s, backendCalls := 0 }
    | some _controller =>
      match backend with
      | .error e =>
        { result := .error (.transport e), state := s, backendCalls := 1 }
      | .ok res =>
        let resourceID := pathBase req.name
        match res.find? (fun r => r.name == resourceID && r.type == "virtio_blk") with
        | some r =>
          { result := .ok (listEntryToVirtioBlk r), state := s, backendCalls := 1 }
        | none =>
          { result := .error (.grpcStatus .invalidArgument
              ("Could not find Controller: " ++ req.name)),
            state := s, backendCalls := 1 }

/-- Request message of VirtioBlkStats. -/
structure VirtioBlkStatsRequest where
  controllerId : ObjectKey
  deriving DecidableEq, Repr

/-- First device entry of the nested iostat reply whose device name equals
the requested identifier, in the nested loop order of VirtioBlkStats. -/
def findBdevStats (controllers : List NvdaControllerStats) (name : String) :
    Option NvdaBdevStats :=
  match controllers with
  | [] => none
  | c :: rest =>
    match c.bdevs.find? (fun r => r.bdevName == name) with
    | some r => some r
    | none => findBdevStats rest name

/-- Go VirtioBlkStats.  backend is the reply of the
controller_virtio_blk_get_iostat call. -/
def virtioBlkStats (s : ServerState) (req : VirtioBlkStatsRequest)
    (backend : Except String NvdaControllerNvmeStatsResult) :
    Outcome VirtioBlkStatsResponse :=
  if !(validateResourceName req.controllerId.value) then
    { result := .error .invalidResourceName, state := s, backendCalls := 0 }
  else
    match backend with
    | .error e =>
      { result := .error (.transport e), state := s, backendCalls := 1 }
    | .ok res =>
      match findBdevStats res.controllers req.controllerId.value with
      | some r =>
        { result := .ok { id := req.controllerId,
                          stats := { readOpsCount := toInt32 r.readIos,
                                     writeOpsCount := toInt32 r.writeIos } },
          state := s, backendCalls := 1 }
      | none =>
        { result := .error (.grpcStatus .invalidArgument
            ("Could not find Controller: " ++ req.controllerId.value)),
          state := s, backendCalls := 1 }

theorem create_gate_false (req : CreateVirtioBlkRequest)
    (hval : req.virtioBlkId = "" ∨ validateUserSettable req.virtioBlkId = true) :
    (req.virtioBlkId != "" && !(validateUserSettable req.virtioBlkId)) = false := by
  rcases hval with h | h
  · simp [h]
  · simp [h]

theorem create_result_registered (s : ServerState) (req : CreateVirtioBlkRequest)
    (sysGenId : String) (backend : Except String String) (v : VirtioBlk)
    (hok : (createVirtioBlk s req sysGenId backend).result = .ok v) :
    ((createVirtioBlk s req sysGenId backend).state).virtioCtrls.lookup
      (resourceIDToVolumeName (derivedResourceID req sysGenId)) = some v := by
  unfold createVirtioBlk at hok ⊢
  by_cases hgate : (req.virtioBlkId != "" && !(validateUserSettable req.virtioBlkId)) = true
  · simp [hgate] at hok
  · simp only [Bool.not_eq_true] at hgate
    simp only [hgate, Bool.false_eq_true, if_false] at hok ⊢
    cases hlk : s.virtioCtrls.lookup (resourceIDToVolumeName (derivedResourceID req sysGenId)) with
    | some c =>
      simp [hlk] at hok ⊢
      exact hok
    | none =>
      cases backend with
      | error e => simp [hlk] at hok
      | ok res =>
        by_cases hres : (res == "") = true
        · simp [hlk, hres] at hok
        · simp only [Bool.not_eq_true] at hres
          simp [hlk, hres] at hok ⊢
          exact hok

/-- C1: a Create whose derived canonical name is already registered returns
the stored representation, leaves the state unchanged and issues no backend
call; consequently a second Create with the same derived name after a
successful one returns the identical representation with zero backend
calls. -/
theorem C1_idempotent_create (req : CreateVirtioBlkRequest) (sysGenId : String)
    (hval : req.virtioBlkId = "" ∨ validateUserSettable req.virtioBlkId = true) :
    (∀ s ctrl backend,
      s.virtioCtrls.lookup (resourceIDToVolumeName (derivedResourceID req sysGenId)) = some ctrl →
      createVirtioBlk s req sysGenId backend =
        { result := .ok ctrl, state := s, backendCalls := 0 })
    ∧ (∀ s b1 b2 v, (createVirtioBlk s req sysGenId b1).result = .ok v →
      createVirtioBlk (createVirtioBlk s req sysGenId b1).state req sysGenId b2 =
        { result := .ok v, state := (createVirtioBlk s req sysGenId b1).state,
          backendCalls := 0 }) := by
  have hgate := create_gate_false req hval
  have h1 : ∀ s ctrl backend,
      s.virtioCtrls.lookup (resourceIDToVolumeName (derivedResourceID req sysGenId)) = some ctrl →
      createVirtioBlk s req sysGenId backend =
        { result := .ok ctrl, state := s, backendCalls := 0 } := by
    intro s ctrl backend hhit
    unfold createVirtioBlk
    simp [hgate, hhit]
  refine ⟨h1, ?_⟩
  intro s b1 b2 v hok
  exact h1 _ v b2 (create_result_registered s req sysGenId b1 v hok)

/-- Sample controller spec used by the concrete witnesses. -/
def sampleBlk : VirtioBlk :=
  { id := { value := "virtio-blk-42" }, name := "",
    pcieId := { physicalFunction := 42, virtualFunction := 0 },
    volumeId := { value := "Malloc42" }, maxIoQps := 1 }

/-- Canonical name the sample identifier derives to. -/
def sampleName : String := resourceIDToVolumeName "virtio-blk-42"

/-- Representation Create stores for the sample spec. -/
def sampleStored : VirtioBlk := { sampleBlk with name := sampleName }

/-- State whose registry already holds the sample controller. -/
def sampleState : ServerState :=
  { virtioCtrls := [(sampleName, sampleStored)], pagination := [] }

/-- State with an empty registry and cursor store. -/
def emptyState : ServerState := { virtioCtrls := [], pagination := [] }

/-- Sample Create request with a caller-supplied identifier. -/
def sampleReq : CreateVirtioBlkRequest :=
  { virtioBlk := sampleBlk, virtioBlkId := "virtio-blk-42" }

theorem C1_idempotent_create_witness :
    createVirtioBlk sampleState sampleReq "sys" (.ok "VblkEmu0pf0") =
      { result := .ok sampleStored, state := sampleState, backendCalls := 0 } :=
  (C1_idempotent_create sampleReq "sys" (Or.inr (by decide))).1
    sampleState sampleStored _ (by decide)

/-- C4: when the derived name is unregistered and the backend create call
returns without transport error, an empty result yields an
InvalidArgument error with a descriptive message and an unchanged state,
while a non-empty result stores a clone of the input spec under the
canonical name and returns it. -/
theorem C4_create_backend_logical_failure (s : ServerState)
    (req : CreateVirtioBlkRequest) (sysGenId : String)
    (hval : req.virtioBlkId = "" ∨ validateUserSettable req.virtioBlkId = true)
    (hmiss : s.virtioCtrls.lookup
      (resourceIDToVolumeName (derivedResourceID req sysGenId)) = none) :
    createVirtioBlk s req sysGenId (.ok "") =
      { result := .error (.grpcStatus .invalidArgument
          ("Could not create virtio-blk: " ++ derivedResourceID req sysGenId)),
        state := s, backendCalls := 1 }
    ∧ ∀ res, res ≠ "" →
      createVirtioBlk s req sysGenId (.ok res) =
        { result := .ok { req.virtioBlk with
            name := resourceIDToVolumeName (derivedResourceID req sysGenId) },
          state := { s with virtioCtrls :=
            (resourceIDToVolumeName (derivedResourceID req sysGenId),
              { req.virtioBlk with
                name := resourceIDToVolumeName (derivedResourceID req sysGenId) })
              :: s.virtioCtrls },
          backendCalls := 1 } := by
  have hgate := create_gate_false req hval
  constructor
  · unfold createVirtioBlk
    simp [hgate, hmiss]
  · intro res hres
    unfold createVirtioBlk
    simp [hgate, hmiss, hres]

theorem C4_create_backend_logical_failure_witness :
    createVirtioBlk emptyState sampleReq "sys" (.ok "") =
      { result := .error (.grpcStatus .invalidArgument
          ("Could not create virtio-blk: " ++ "virtio-blk-42")),
        state := emptyState, backendCalls := 1 } :=
  (C4_create_backend_logical_failure emptyState
    sampleReq "sys" (Or.inr (by decide)) (by decide)).1

theorem lookup_mapErase_self (m : List (String × VirtioBlk)) (k : String) :
    (mapErase m k).lookup k = none := by
  induction m with
  | nil => rfl
  | cons kv rest ih =>
    obtain ⟨k1, v1⟩ := kv
    by_cases h : k1 = k
    · have hskip : mapErase ((k1, v1) :: rest) k = mapErase rest k := by
        simp [mapErase, List.filter_cons, h]
      rw [hskip]
      exact ih
    · have hkeep : mapErase ((k1, v1) :: rest) k = (k1, v1) :: mapErase rest k := by
        simp [mapErase, List.filter_cons, h]
      rw [hkeep]
      have hk : (k == k1) = false := beq_eq_false_iff_ne.mpr (fun hh => h hh.symm)
      simp only [List.lookup, hk]
      exact ih

/-- C3: a Delete of a registered name whose backend call returns without
transport error succeeds, removes the registry entry whatever the boolean
backend result was, and issues one backend call. -/
theorem C3_best_effort_delete (s : ServerState) (req : DeleteVirtioBlkRequest)
    (ctrl : VirtioBlk) (b : Bool)
    (hreq : validateRequiredName req.name = true)
    (hname : validateResourceName req.name = true)
    (hhit : s.virtioCtrls.lookup req.name = some ctrl)
    (hkey : ctrl.name = req.name) :
    deleteVirtioBlk s req (.ok b) =
      { result := .ok (),
        state := { s with virtioCtrls := mapErase s.virtioCtrls req.name },
        backendCalls := 1 }
    ∧ (mapErase s.virtioCtrls req.name).lookup req.name = none := by
  constructor
  · unfold deleteVirtioBlk
    simp [hreq, hname, hhit, hkey]
  · exact lookup_mapErase_self _ _

theorem C3_best_effort_delete_witness :
    deleteVirtioBlk sampleState { name := sampleName, allowMissing := false } (.ok false) =
      { result := .ok (), state := emptyState, backendCalls := 1 }
    ∧ deleteVirtioBlk sampleState { name := sampleName, allowMissing := false } (.ok true) =
      { result := .ok (), state := emptyState, backendCalls := 1 } := by
  have h1 := C3_best_effort_delete sampleState
    { name := sampleName, allowMissing := false } sampleStored false
    (by decide) (by decide) (by decide) (by decide)
  have h2 := C3_best_effort_delete sampleState
    { name := sampleName, allowMissing := false } sampleStored true
    (by decide) (by decide) (by decide) (by decide)
  refine ⟨h1.1.trans (by decide), h2.1.trans (by decide)⟩

/-- C6: a Delete of an unregistered name leaves the state unchanged and
issues no backend call; it succeeds when allow-missing is set and fails
with the finding-controller error otherwise. -/
theorem C6_delete_unknown_name (s : ServerState) (req : DeleteVirtioBlkRequest)
    (hreq : validateRequiredName req.name = true)
    (hname : validateResourceName req.name = true)
    (hmiss : s.virtioCtrls.lookup req.name = none) :
    (req.allowMissing = true → ∀ backend,
      deleteVirtioBlk s req backend =
        { result := .ok (), state := s, backendCalls := 0 })
    ∧ (req.allowMissing = false → ∀ backend,
      deleteVirtioBlk s req backend =
        { result := .error (.goError ("error finding controller " ++ req.name)),
          state := s, backendCalls := 0 }) := by
  constructor
  · intro ham backend
    unfold deleteVirtioBlk
    simp [hreq, hname, hmiss, ham]
  · intro ham backend
    unfold deleteVirtioBlk
    simp [hreq, hname, hmiss, ham]

theorem C6_delete_unknown_name_witness :
    deleteVirtioBlk emptyState { name := sampleName, allowMissing := true } (.error "unused") =
      { result := .ok (), state := emptyState, backendCalls := 0 }
    ∧ deleteVirtioBlk emptyState { name := sampleName, allowMissing := false } (.error "unused") =
      { result := .error (.goError ("error finding controller " ++ sampleName)),
        state := emptyState, backendCalls := 0 } :=
  ⟨(C6_delete_unknown_name emptyState { name := sampleName, allowMissing := true }
      (by decide) (by decide) (by decide)).1 rfl _,
   (C6_delete_unknown_name emptyState { name := sampleName, allowMissing := false }
      (by decide) (by decide) (by decide)).2 rfl _⟩

/-- C7: a validated Update of a registered name with a valid field mask
terminates with Unimplemented, mutating nothing and issuing no backend
call; an unregistered name yields NotFound whatever allow-missing is. -/
theorem C7_update_terminal (s : ServerState) (req : UpdateVirtioBlkRequest)
    (hname : validateResourceName req.virtioBlk.name = true) :
    (∀ ctrl, s.virtioCtrls.lookup req.virtioBlk.name = some ctrl →
      validateFieldMask req.updateMask = true →
      updateVirtioBlk s req =
        { result := .error (.grpcStatus .unimplemented
            "UpdateVirtioBlk method is not implemented"),
          state := s, backendCalls := 0 })
    ∧ (s.virtioCtrls.lookup req.virtioBlk.name = none →
      updateVirtioBlk s req =
        { result := .error (.grpcStatus .notFound
            ("unable to find key " ++ req.virtioBlk.name)),
          state := s, backendCalls := 0 }) := by
  constructor
  · intro ctrl hhit hmask
    unfold updateVirtioBlk
    simp [hname, hhit, hmask]
  · intro hmiss
    unfold updateVirtioBlk
    simp [hname, hmiss]

theorem C7_update_terminal_witness :
    updateVirtioBlk sampleState
      { virtioBlk := sampleStored, updateMask := ["volume_id"], allowMissing := false } =
      { result := .error (.grpcStatus .unimplemented
          "UpdateVirtioBlk method is not implemented"),
        state := sampleState, backendCalls := 0 }
    ∧ updateVirtioBlk emptyState
      { virtioBlk := sampleStored, updateMask := ["volume_id"], allowMissing := true } =
      { result := .error (.grpcStatus .notFound
          ("unable to find key " ++ sampleName)),
        state := emptyState, backendCalls := 0 } :=
  ⟨(C7_update_terminal sampleState
      { virtioBlk := sampleStored, updateMask := ["volume_id"], allowMissing := false }
      (by decide)).1 sampleStored (by decide) (by decide),
   (C7_update_terminal emptyState
      { virtioBlk := sampleStored, updateMask := ["volume_id"], allowMissing := true }
      (by decide)).2 (by decide)⟩

/-- Backend statistics reply used by the C9 witness. -/
def sampleStatsRes : NvdaControllerNvmeStatsResult :=
  { controllers :=
      [{ bdevs := [{ bdevName := "other", readIos := 9, writeIos := 9 }] },
       { bdevs := [{ bdevName := "VblkEmu0pf0", readIos := 5, writeIos := 3 }] }] }

/-- C5: Get on a name absent from the registry fails with InvalidArgument
before any backend call, whatever the backend listing holds; on a
registered name it returns the backend entry matching the trailing path
segment and the virtio-blk type, and fails with InvalidArgument when no
such entry exists. -/
theorem C5_get_existence_gate (s : ServerState) (req : GetVirtioBlkRequest)
    (hreq : validateRequiredName req.name = true)
    (hname : validateResourceName req.name = true) :
    (s.virtioCtrls.lookup req.name = none → ∀ backend,
      getVirtioBlk s req backend =
        { result := .error (.grpcStatus .invalidArgument
            ("Could not find Controller: " ++ req.name)),
          state := s, backendCalls := 0 })
    ∧ (∀ ctrl listing r, s.virtioCtrls.lookup req.name = some ctrl →
      listing.find? (fun e => e.name == pathBase req.name && e.type == "virtio_blk") = some r →
      getVirtioBlk s req (.ok listing) =
        { result := .ok (listEntryToVirtioBlk r), state := s, backendCalls := 1 })
    ∧ (∀ ctrl listing, s.virtioCtrls.lookup req.name = some ctrl →
      listing.find? (fun e => e.name == pathBase req.name && e.type == "virtio_blk") = none →
      getVirtioBlk s req (.ok listing) =
        { result := .error (.grpcStatus .invalidArgument
            ("Could not find Controller: " ++ req.name)),
          state := s, backendCalls := 1 }) := by
  refine ⟨?_, ?_, ?_⟩
  · intro hmiss backend
    unfold getVirtioBlk
    simp [hreq, hname, hmiss]
  · intro ctrl listing r hhit hfind
    unfold getVirtioBlk
    simp [hreq, hname, hhit, hfind]
  · intro ctrl listing hhit hfind
    unfold getVirtioBlk
    simp [hreq, hname, hhit, hfind]

theorem C5_get_existence_gate_witness :
    getVirtioBlk emptyState { name := sampleName }
      (.ok [{ name := "virtio-blk-42", type := "nvme", pciIndex := 7 }]) =
      { result := .error (.grpcStatus .invalidArgument
          ("Could not find Controller: " ++ sampleName)),
        state := emptyState, backendCalls := 0 }
    ∧ getVirtioBlk sampleState { name := sampleName }
      (.ok [{ name := "virtio-blk-42", type := "virtio_blk", pciIndex := 7 }]) =
      { result := .ok (listEntryToVirtioBlk
          { name := "virtio-blk-42", type := "virtio_blk", pciIndex := 7 }),
        state := sampleState, backendCalls := 1 } :=
  ⟨(C5_get_existence_gate emptyState { name := sampleName }
      (by decide) (by decide)).1 (by decide) _,
   (C5_get_existence_gate sampleState { name := sampleName }
      (by decide) (by decide)).2.1 sampleStored _
      { name := "virtio-blk-42", type := "virtio_blk", pciIndex := 7 }
      (by decide) (by decide)⟩

theorem toInt32_eq_self (n : Int) (h1 : -2 ^ 31 ≤ n) (h2 : n < 2 ^ 31) :
    toInt32 n = n := by
  unfold toInt32
  omega

theorem findBdevStats_some_name (cs : List NvdaControllerStats) (name : String)
    (r : NvdaBdevStats) (h : findBdevStats cs name = some r) :
    r.bdevName = name := by
  induction cs with
  | nil => simp [findBdevStats] at h
  | cons c rest ih =>
    simp only [findBdevStats] at h
    cases hf : c.bdevs.find? (fun x => x.bdevName == name) with
    | some x =>
      rw [hf] at h
      cases h
      have := List.find?_some hf
      simpa using this
    | none =>
      rw [hf] at h
      exact ih h

theorem findBdevStats_none_iff (cs : List NvdaControllerStats) (name : String) :
    findBdevStats cs name = none ↔
      ∀ c ∈ cs, ∀ r ∈ c.bdevs, r.bdevName ≠ name := by
  induction cs with
  | nil => simp [findBdevStats]
  | cons c rest ih =>
    simp only [findBdevStats, List.mem_cons]
    cases hf : c.bdevs.find? (fun x => x.bdevName == name) with
    | some x =>
      have hx := List.find?_some hf
      have hmem := List.mem_of_find?_eq_some hf
      simp only [beq_iff_eq] at hx
      constructor
      · intro habs
        exact absurd habs (by simp)
      · intro hall
        exact absurd hx (hall c (Or.inl rfl) x hmem)
    | none =>
      have hnone := List.find?_eq_none.mp hf
      simp only [beq_iff_eq] at hnone
      rw [ih]
      constructor
      · intro hall c2 hc2 r hr
        rcases hc2 with hc2 | hc2
        · subst hc2
          exact hnone r hr
        · exact hall c2 hc2 r hr
      · intro hall c2 hc2 r hr
        exact hall c2 (Or.inr hc2) r hr

/-- C9: a Stats request with a valid identifier returns the read and write
operation counts of the first nested device entry whose name equals the
identifier, fails with InvalidArgument when no entry matches, and the
no-match case holds exactly when no equal-named entry exists anywhere in
the nested structure. -/
theorem C9_stats_lookup (s : ServerState) (req : VirtioBlkStatsRequest)
    (res : NvdaControllerNvmeStatsResult)
    (hname : validateResourceName req.controllerId.value = true) :
    (∀ r, findBdevStats res.controllers req.controllerId.value = some r →
      -2 ^ 31 ≤ r.readIos → r.readIos < 2 ^ 31 →
      -2 ^ 31 ≤ r.writeIos → r.writeIos < 2 ^ 31 →
      virtioBlkStats s req (.ok res) =
        { result := .ok
            { id := req.controllerId,
              stats := { readOpsCount := r.readIos, writeOpsCount := r.writeIos } },
          state := s, backendCalls := 1 }
        ∧ r.bdevName = req.controllerId.value)
    ∧ (findBdevStats res.controllers req.controllerId.value = none →
      virtioBlkStats s req (.ok res) =
        { result := .error (.grpcStatus .invalidArgument
            ("Could not find Controller: " ++ req.controllerId.value)),
          state := s, backendCalls := 1 })
    ∧ (findBdevStats res.controllers req.controllerId.value = none ↔
      ∀ c ∈ res.controllers, ∀ r ∈ c.bdevs,
        r.bdevName ≠ req.controllerId.value) := by
  refine ⟨?_, ?_, findBdevStats_none_iff _ _⟩
  · intro r hfind hr1 hr2 hw1 hw2
    refine ⟨?_, findBdevStats_some_name _ _ _ hfind⟩
    unfold virtioBlkStats
    simp [hname, hfind, toInt32_eq_self _ hr1 hr2, toInt32_eq_self _ hw1 hw2]
  · intro hfind
    unfold virtioBlkStats
    simp [hname, hfind]

theorem C9_stats_lookup_witness :
    virtioBlkStats emptyState { controllerId := { value := "VblkEmu0pf0" } }
      (.ok sampleStatsRes) =
      { result := .ok
          { id := { value := "VblkEmu0pf0" },
            stats := { readOpsCount := 5, writeOpsCount := 3 } },
        state := emptyState, backendCalls := 1 }
    ∧ virtioBlkStats emptyState { controllerId := { value := "VblkEmu0pf0" } }
      (.ok { controllers := [{ bdevs := [] }] }) =
      { result := .error (.grpcStatus .invalidArgument
          ("Could not find Controller: " ++ "VblkEmu0pf0")),
        state := emptyState, backendCalls := 1 } :=
  ⟨((C9_stats_lookup emptyState { controllerId := { value := "VblkEmu0pf0" } }
      sampleStatsRes (by decide)).1
      { bdevName := "VblkEmu0pf0", readIos := 5, writeIos := 3 }
      (by decide) (by decide) (by decide) (by decide) (by decide)).1,
   (C9_stats_lookup emptyState { controllerId := { value := "VblkEmu0pf0" } }
      { controllers := [{ bdevs := [] }] } (by decide)).2.1 (by decide)⟩

theorem charListLe_total (a b : List Char) :
    (charListLe a b || charListLe b a) = true := by
  induction a generalizing b with
  | nil => simp [charListLe]
  | cons x xs ih =>
    cases b with
    | nil => simp [charListLe]
    | cons y ys =>
      simp only [charListLe]
      by_cases h1 : x.toNat < y.toNat
      · simp [h1]
      · by_cases h2 : y.toNat < x.toNat
        · simp [h1, h2]
        · simp [h1, h2, ih ys]

theorem charListLe_trans (a b c : List Char)
    (hab : charListLe a b = true) (hbc : charListLe b c = true) :
    charListLe a c = true := by
  induction a generalizing b c with
  | nil => simp [charListLe]
  | cons x xs ih =>
    cases b with
    | nil => simp [charListLe] at hab
    | cons y ys =>
      cases c with
      | nil => simp [charListLe] at hbc
      | cons z zs =>
        simp only [charListLe] at hab hbc ⊢
        by_cases h1 : x.toNat < y.toNat <;>
          by_cases h2 : y.toNat < x.toNat <;>
          by_cases h3 : y.toNat < z.toNat <;>
          by_cases h4 : z.toNat < y.toNat <;>
          by_cases h5 : x.toNat < z.toNat <;>
          by_cases h6 : z.toNat < x.toNat <;>
          simp only [h1, h2, h3, h4, h5, h6, if_true, if_false] at hab hbc ⊢ <;>
          first
            | rfl
            | exact absurd hab Bool.false_ne_true
            | exact absurd hbc Bool.false_ne_true
            | (exfalso; omega)
            | exact ih ys zs hab hbc

theorem nameLe_total (a b : VirtioBlk) : (nameLe a b || nameLe b a) = true :=
  charListLe_total a.name.data b.name.data

theorem nameLe_trans (a b c : VirtioBlk)
    (hab : nameLe a b = true) (hbc : nameLe b c = true) : nameLe a c = true :=
  charListLe_trans a.name.data b.name.data c.name.data hab hbc

/-- C8: every page a successful List call returns is sorted by resource
name ascending, whatever order the backend listing delivered. -/
theorem C8_list_page_sorted (s : ServerState) (req : ListVirtioBlksRequest)
    (newToken : String)
    (backend : Except String (List NvdaControllerListResult))
    (resp : ListVirtioBlksResponse)
    (h : (listVirtioBlks s req newToken backend).result = .ok resp) :
    resp.virtioBlks.Pairwise (fun a b => nameLe a b = true) := by
  unfold listVirtioBlks at h
  cases hp : extractPagination req.pageSize req.pageToken s.pagination with
  | error e =>
    rw [hp] at h
    simp at h
  | ok so =>
    obtain ⟨size, offset⟩ := so
    rw [hp] at h
    cases backend with
    | error e => simp at h
    | ok res =>
      simp only [Except.ok.injEq] at h
      have hv : resp.virtioBlks = sortVirtioBlks
          (((limitPagination res offset size).1.filter
            (fun r => r.type == "virtio_blk")).map listEntryToVirtioBlk) := by
        rw [← h]
      rw [hv]
      exact List.sorted_mergeSort
        (fun a b c => nameLe_trans a b c) (fun a b => nameLe_total a b) _

/-- Backend listing used by the List witnesses: two virtio-blk entries
delivered in descending name order. -/
def sampleListing : List NvdaControllerListResult :=
  [{ name := "b", type := "virtio_blk", pciIndex := 2 },
   { name := "a", type := "virtio_blk", pciIndex := 1 }]

theorem C8_list_page_sorted_witness :
    List.Pairwise (fun a b => nameLe a b = true)
      [listEntryToVirtioBlk { name := "a", type := "virtio_blk", pciIndex := 1 },
       listEntryToVirtioBlk { name := "b", type := "virtio_blk", pciIndex := 2 }] :=
  C8_list_page_sorted emptyState { pageSize := 0, pageToken := "" } "tok-1"
    (.ok sampleListing)
    { virtioBlks :=
        [listEntryToVirtioBlk { name := "a", type := "virtio_blk", pciIndex := 1 },
         listEntryToVirtioBlk { name := "b", type := "virtio_blk", pciIndex := 2 }],
      nextPageToken := "" }
    (by simp [listVirtioBlks, extractPagination, limitPagination, sortVirtioBlks,
      maxPageSize, sampleListing, List.mergeSort, nameLe, charListLe])

/-- C10: every resource a successful List or Get returns carries the fixed
placeholder string TBD as its volume reference, whatever the backend
listing holds and whatever Create stored. -/
theorem C10_volume_reference_placeholder :
    (∀ s req newToken backend resp,
      (listVirtioBlks s req newToken backend).result = .ok resp →
      ∀ v ∈ resp.virtioBlks, v.volumeId = { value := "TBD" })
    ∧ (∀ s req backend v,
      (getVirtioBlk s req backend).result = .ok v →
      v.volumeId = { value := "TBD" }) := by
  constructor
  · intro s req newToken backend resp h v hv
    unfold listVirtioBlks at h
    cases hp : extractPagination req.pageSize req.pageToken s.pagination with
    | error e =>
      rw [hp] at h
      simp at h
    | ok so =>
      obtain ⟨size, offset⟩ := so
      rw [hp] at h
      cases backend with
      | error e => simp at h
      | ok res =>
        simp only [Except.ok.injEq] at h
        rw [← h] at hv
        simp only [sortVirtioBlks, List.mem_mergeSort, List.mem_map] at hv
        obtain ⟨r, _, hr⟩ := hv
        rw [← hr]
        rfl
  · intro s req backend v h
    unfold getVirtioBlk at h
    by_cases hreq : validateRequiredName req.name = true
    · by_cases hname : validateResourceName req.name = true
      · simp only [hreq, hname, Bool.not_true, Bool.false_eq_true, if_false] at h
        cases hlk : s.virtioCtrls.lookup req.name with
        | none =>
          rw [hlk] at h
          simp at h
        | some ctrl =>
          rw [hlk] at h
          cases backend with
          | error e => simp at h
          | ok res =>
            dsimp only at h
            cases hf : res.find?
                (fun r => r.name == pathBase req.name && r.type == "virtio_blk") with
            | some r =>
              rw [hf] at h
              simp only [Except.ok.injEq] at h
              rw [← h]
              rfl
            | none =>
              rw [hf] at h
              simp at h
      · simp only [Bool.not_eq_true] at hname
        simp [hname] at h
        split at h <;> simp at h
    · simp only [Bool.not_eq_true] at hreq
      simp [hreq] at h

theorem C10_volume_reference_placeholder_witness :
    (listEntryToVirtioBlk { name := "a", type := "virtio_blk", pciIndex := 1 }).volumeId =
      { value := "TBD" }
    ∧ (listEntryToVirtioBlk
        { name := "virtio-blk-42", type := "virtio_blk", pciIndex := 7 }).volumeId =
      { value := "TBD" } :=
  ⟨C10_volume_reference_placeholder.1 emptyState { pageSize := 0, pageToken := "" }
      "tok-1" (.ok sampleListing)
      { virtioBlks :=
          [listEntryToVirtioBlk { name := "a", type := "virtio_blk", pciIndex := 1 },
           listEntryToVirtioBlk { name := "b", type := "virtio_blk", pciIndex := 2 }],
        nextPageToken := "" }
      (by simp [listVirtioBlks, extractPagination, limitPagination, sortVirtioBlks,
        maxPageSize, sampleListing, List.mergeSort, nameLe, charListLe])
      _ (by simp),
   C10_volume_reference_placeholder.2 sampleState { name := sampleName }
      (.ok [{ name := "virtio-blk-42", type := "virtio_blk", pciIndex := 7 }])
      _ (by decide)⟩

/-- C2: evaluated at a heterogeneous backend listing holding two
virtio-blk entries and one other entry, with page size one and no token,
List returns an empty page instead of one virtio-blk entry because the
offset/size window is applied to the raw listing before the type filter;
the minted cursor is stored server-side only and the next-page token field
of the response stays empty, so the claimed token redemption through the
response is impossible. -/
theorem C2_list_pagination_code_behavior :
    listVirtioBlks emptyState { pageSize := 1, pageToken := "" } "tok-1"
      (.ok [{ name := "nvme0", type := "nvme", pciIndex := 0 },
            { name := "a", type := "virtio_blk", pciIndex := 1 },
            { name := "b", type := "virtio_blk", pciIndex := 2 }]) =
      { result := .ok { virtioBlks := [], nextPageToken := "" },
        state := { virtioCtrls := [], pagination := [("tok-1", 1)] },
        backendCalls := 1 }
    ∧ ([{ name := "nvme0", type := "nvme", pciIndex := 0 },
        { name := "a", type := "virtio_blk", pciIndex := 1 },
        { name := "b", type := "virtio_blk", pciIndex := 2 }]
          : List NvdaControllerListResult).countP
        (fun r => r.type == "virtio_blk") = 2 := by
  constructor
  · simp [listVirtioBlks, extractPagination, limitPagination, sortVirtioBlks,
      maxPageSize, emptyState, List.mergeSort]
  · decide

end OpiNvidia
